import Mathlib

/-!
Shallow embedding of `src/semantic_scholar/api/recommendations.py` from the
semantic-scholar-fastmcp-mcp-server repository, together with the pieces of
the shared infrastructure the two recommendation handlers use.

The two tool handlers, `get_paper_recommendations_single` and
`get_paper_recommendations_multi`, are translated as pure functions from the
tool arguments and an environment (the resolved API key, the configured
request timeout, and the outcome of the single outbound HTTP attempt) to a
returned value together with a trace of observable events: the rate-limiter
acquisition, the construction of a per-call HTTP client, the HTTP request
itself, and operator logging.  The trace makes the temporal and
resource-usage claims (ordering of validation versus rate limiting, zero
network calls on validation failure, per-call client construction) statable.
-/

/-- A JSON-like value, used for request parameters, request bodies, parsed
response bodies and the structured `details` of error envelopes. -/
inductive JValue where
  | s (v : String)
  | n (v : Int)
  | b (v : Bool)
  | null
  | arr (vs : List JValue)
  | obj (fields : List (String × JValue))

/-- Modelled from the spec: the error-kind enumeration of the Error Envelope,
`enum` of VALIDATION, RATE_LIMIT, API_ERROR, TIMEOUT and NOT_FOUND (the
`ErrorType` imported from `..config`, whose source file is not provided). -/
inductive ErrorType where
  | VALIDATION
  | RATE_LIMIT
  | API_ERROR
  | TIMEOUT
  | NOT_FOUND
deriving DecidableEq

/-- Modelled from the spec: the Error Envelope, an immutable value with a
classified kind, a message string and a mapping of structured details. -/
structure ErrorEnvelope where
  kind : ErrorType
  message : String
  details : List (String × JValue)

/-- Modelled from the spec: `create_error_response` from `..utils.errors`
(source file not provided) builds the uniform Error Envelope from a kind, a
message, and structured details; the envelope is returned, never raised. -/
def create_error_response (kind : ErrorType) (message : String)
    (details : List (String × JValue)) : ErrorEnvelope :=
  ErrorEnvelope.mk kind message details

/-- Outcome of the single outbound HTTP attempt a handler makes: a response
with status, headers, raw body text and parsed JSON body; a transport-level
timeout (`httpx.TimeoutException`); or any other unexpected failure with its
string rendering (what `str(e)` yields for the caught exception). -/
inductive HttpOutcome where
  | response (status : Nat) (headers : List (String × String)) (text : String)
      (body : JValue)
  | timeout
  | failure (description : String)

/-- The ambient environment of one tool invocation: the credential returned
by `get_api_key()` (modelled from the spec: an optional opaque string from
process-wide configuration), the configured request timeout `Config.TIMEOUT`
(modelled from the spec: a fixed configured number of seconds), and the
outcome the transport produces for the one request the handler issues. -/
structure Env where
  api_key : Option String
  timeout : Nat
  outcome : HttpOutcome

/-- Python truthiness of an optional string: `None` and the empty string are
falsy.  Used for `if api_key else` and `bool(get_api_key())`. -/
def truthyStr : Option String → Bool
  | none => false
  | some k => !(k = "")

/-- `headers = {"x-api-key": api_key} if api_key else {}`. -/
def authHeaders (api_key : Option String) : List (String × String) :=
  if truthyStr api_key then [("x-api-key", (api_key.getD ""))] else []

/-- `headers.get(key)`: first value bound to the key, if any. -/
def headerGet (hs : List (String × String)) (key : String) : Option String :=
  (hs.find? (fun p => p.fst == key)).map Prod.snd

/-- Observable events of one tool invocation, in program order:
rate-limiter acquisition (`await rate_limiter.acquire(endpoint)`),
per-call HTTP client construction (`async with httpx.AsyncClient(timeout=Config.TIMEOUT)`),
the GET or POST request itself, and operator logging (`logger.error`). -/
inductive Event where
  | acquire (endpoint : String)
  | createClient (timeout : Nat)
  | httpGet (url : String) (params : List (String × JValue))
      (headers : List (String × String))
  | httpPost (url : String) (params : List (String × JValue)) (body : JValue)
      (headers : List (String × String))
  | logError (message : String)

/-- The value a tool invocation returns: the parsed successful response body,
or an error envelope.  Nothing is ever raised across the tool boundary. -/
inductive ToolResult where
  | ok (body : JValue)
  | err (e : ErrorEnvelope)

/-- `params["fields"] = fields` guarded by Python truthiness (`if fields:`). -/
def fieldsParam (fields : Option String) : List (String × JValue) :=
  if truthyStr fields then [("fields", JValue.s (fields.getD ""))] else []

/-- The JSON rendering of the raw `negative_paper_ids` argument as it is
echoed in the multi handler's 404 details: `None` renders as JSON null, a
list renders as a JSON array. -/
def negEcho : Option (List String) → JValue
  | some l => JValue.arr (l.map JValue.s)
  | none => JValue.null

/-- Embedding of `get_paper_recommendations_single` from
`src/semantic_scholar/api/recommendations.py`.  Mirrors the source order:
acquire the rate limiter for `/recommendations`; validate `limit` and
`from_pool`; build params; construct a per-call client with the configured
timeout; GET the for-paper URL; classify the outcome exactly as the source's
branch structure and `except` clauses do. -/
def get_paper_recommendations_single (env : Env) (paper_id : String)
    (fields : Option String) (limit : Int) (from_pool : String) :
    ToolResult × List Event :=
  let tr0 := [Event.acquire "/recommendations"]
  if limit > 500 then
    (ToolResult.err (create_error_response ErrorType.VALIDATION
      "Cannot request more than 500 recommendations"
      [("max_limit", JValue.n 500), ("requested", JValue.n limit)]), tr0)
  else if from_pool ∉ (["recent", "all-cs"] : List String) then
    (ToolResult.err (create_error_response ErrorType.VALIDATION
      "Invalid paper pool specified"
      [("valid_pools", JValue.arr [JValue.s "recent", JValue.s "all-cs"])]), tr0)
  else
    let params := [("limit", JValue.n limit), ("from", JValue.s from_pool)] ++
      fieldsParam fields
    let headers := authHeaders env.api_key
    let url :=
      "https://api.semanticscholar.org/recommendations/v1/papers/forpaper/" ++
        paper_id
    let tr1 := tr0 ++ [Event.createClient env.timeout,
      Event.httpGet url params headers]
    match env.outcome with
    | HttpOutcome.response status hs text body =>
      if status = 404 then
        (ToolResult.err (create_error_response ErrorType.VALIDATION
          "Paper not found" [("paper_id", JValue.s paper_id)]), tr1)
      else if 200 ≤ status ∧ status < 300 then
        (ToolResult.ok body, tr1)
      else if status = 429 then
        (ToolResult.err (create_error_response ErrorType.RATE_LIMIT
          "Rate limit exceeded. Consider using an API key for higher limits."
          [("retry_after",
             match headerGet hs "retry-after" with
             | some v => JValue.s v
             | none => JValue.null),
           ("authenticated", JValue.b (truthyStr env.api_key))]), tr1)
      else
        (ToolResult.err (create_error_response ErrorType.API_ERROR
          ("HTTP error " ++ toString status)
          [("response", JValue.s text)]), tr1)
    | HttpOutcome.timeout =>
      (ToolResult.err (create_error_response ErrorType.TIMEOUT
        ("Request timed out after " ++ toString env.timeout ++ " seconds")
        []), tr1)
    | HttpOutcome.failure desc =>
      (ToolResult.err (create_error_response ErrorType.API_ERROR
        "Failed to get recommendations" [("error", JValue.s desc)]),
       tr1 ++ [Event.logError
         ("Unexpected error in recommendations: " ++ desc)])

/-- Embedding of `get_paper_recommendations_multi` from
`src/semantic_scholar/api/recommendations.py`.  Mirrors the source order:
acquire the rate limiter for `/recommendations`; validate that
`positive_paper_ids` is non-empty and that `limit` is within the ceiling;
build the JSON body with `negative_paper_ids or []`; construct a per-call
client; POST; classify the outcome exactly as the source does. -/
def get_paper_recommendations_multi (env : Env)
    (positive_paper_ids : List String)
    (negative_paper_ids : Option (List String)) (fields : Option String)
    (limit : Int) : ToolResult × List Event :=
  let tr0 := [Event.acquire "/recommendations"]
  if positive_paper_ids = [] then
    (ToolResult.err (create_error_response ErrorType.VALIDATION
      "Must provide at least one positive paper ID" []), tr0)
  else if limit > 500 then
    (ToolResult.err (create_error_response ErrorType.VALIDATION
      "Cannot request more than 500 recommendations"
      [("max_limit", JValue.n 500), ("requested", JValue.n limit)]), tr0)
  else
    let params := [("limit", JValue.n limit)] ++ fieldsParam fields
    let negList :=
      match negative_paper_ids with
      | some l => if l = [] then [] else l
      | none => []
    let request_body := JValue.obj
      [("positivePaperIds", JValue.arr (positive_paper_ids.map JValue.s)),
       ("negativePaperIds", JValue.arr (negList.map JValue.s))]
    let headers := authHeaders env.api_key
    let url := "https://api.semanticscholar.org/recommendations/v1/papers"
    let tr1 := tr0 ++ [Event.createClient env.timeout,
      Event.httpPost url params request_body headers]
    match env.outcome with
    | HttpOutcome.response status hs text body =>
      if status = 404 then
        (ToolResult.err (create_error_response ErrorType.VALIDATION
          "One or more input papers not found"
          [("positive_ids", JValue.arr (positive_paper_ids.map JValue.s)),
           ("negative_ids", negEcho negative_paper_ids)]), tr1)
      else if 200 ≤ status ∧ status < 300 then
        (ToolResult.ok body, tr1)
      else if status = 429 then
        (ToolResult.err (create_error_response ErrorType.RATE_LIMIT
          "Rate limit exceeded. Consider using an API key for higher limits."
          [("retry_after",
             match headerGet hs "retry-after" with
             | some v => JValue.s v
             | none => JValue.null),
           ("authenticated", JValue.b (truthyStr env.api_key))]), tr1)
      else
        (ToolResult.err (create_error_response ErrorType.API_ERROR
          ("HTTP error " ++ toString status)
          [("response", JValue.s text)]), tr1)
    | HttpOutcome.timeout =>
      (ToolResult.err (create_error_response ErrorType.TIMEOUT
        ("Request timed out after " ++ toString env.timeout ++ " seconds")
        []), tr1)
    | HttpOutcome.failure desc =>
      (ToolResult.err (create_error_response ErrorType.API_ERROR
        "Failed to get recommendations" [("error", JValue.s desc)]),
       tr1 ++ [Event.logError
         ("Unexpected error in recommendations: " ++ desc)])

/-- Whether an event touches the network side of the world: constructing an
HTTP client or issuing a GET or POST request. -/
def isNetworkEvent : Event → Bool
  | Event.createClient _ => true
  | Event.httpGet _ _ _ => true
  | Event.httpPost _ _ _ _ => true
  | _ => false

/-- Number of network events (client constructions and HTTP requests) in a
trace; `0` means the invocation never touched the network. -/
def networkCalls (tr : List Event) : Nat := tr.countP isNetworkEvent

/-- Whether a trace contains the construction of an ad hoc per-call HTTP
client (`httpx.AsyncClient(...)` inside the handler body). -/
def constructsAdHocClient (tr : List Event) : Bool :=
  tr.any (fun e =>
    match e with
    | Event.createClient _ => true
    | _ => false)

/-- Whether a trace contains a rate-limiter acquisition for an endpoint. -/
def acquiresRateLimit (tr : List Event) : Bool :=
  tr.any (fun e =>
    match e with
    | Event.acquire _ => true
    | _ => false)

/-- Whether a trace contains an operator-log event. -/
def logsError (tr : List Event) : Bool :=
  tr.any (fun e =>
    match e with
    | Event.logError _ => true
    | _ => false)

/-- The bodies of the POST requests in a trace, in order. -/
def postBodies (tr : List Event) : List JValue :=
  tr.filterMap (fun e =>
    match e with
    | Event.httpPost _ _ body _ => some body
    | _ => none)

/-- The error kind of a returned value, when it is an error envelope. -/
def resultKind : ToolResult → Option ErrorType
  | ToolResult.ok _ => none
  | ToolResult.err e => some e.kind

/-- The message of a returned value, when it is an error envelope. -/
def resultMessage : ToolResult → Option String
  | ToolResult.ok _ => none
  | ToolResult.err e => some e.message

/-- The structured details of a returned value, when it is an error
envelope. -/
def resultDetails : ToolResult → Option (List (String × JValue))
  | ToolResult.ok _ => none
  | ToolResult.err e => some e.details

mutual
/-- Whether a token string occurs anywhere in a JSON-like value: as a string
leaf, as the rendering of a numeric or boolean leaf, or inside a nested
array or object (keys included).  This is the formal reading of an error
envelope's details "naming" or "including" a value. -/
def jvalueMentions : JValue → String → Bool
  | JValue.s v, t => v == t
  | JValue.n v, t => toString v == t
  | JValue.b v, t => toString v == t
  | JValue.null, _ => false
  | JValue.arr vs, t => jlistMentions vs t
  | JValue.obj fs, t => jfieldsMentions fs t

/-- `jvalueMentions` lifted over a list of values. -/
def jlistMentions : List JValue → String → Bool
  | [], _ => false
  | v :: vs, t => jvalueMentions v t || jlistMentions vs t

/-- `jvalueMentions` lifted over the field list of an object or a details
mapping; a key equal to the token also counts as a mention. -/
def jfieldsMentions : List (String × JValue) → String → Bool
  | [], _ => false
  | (k, v) :: fs, t => k == t || jvalueMentions v t || jfieldsMentions fs t
end

/-- Claim C1: the claim states that every invocation of
`get_paper_recommendations_single` or `get_paper_recommendations_multi`
issues its outbound request through the single process-wide shared client
and that no invocation constructs an ad hoc per-call HTTP client.  The code
is wrong on this point: each handler body opens
`async with httpx.AsyncClient(timeout=Config.TIMEOUT)` and issues its
request through that fresh per-call client, ignoring the shared client that
`server.py` creates at startup via the lifecycle in `..utils.http`.  This
theorem evaluates the embedded code at concrete valid inputs and shows the
per-call client construction in both handlers' traces. -/
theorem c1_per_call_client :
    constructsAdHocClient (get_paper_recommendations_single
      (Env.mk none 30 HttpOutcome.timeout) "p" none 100 "recent").2 = true ∧
    constructsAdHocClient (get_paper_recommendations_multi
      (Env.mk none 30 HttpOutcome.timeout) ["a"] none none 100).2 = true :=
  ⟨rfl, rfl⟩

/-- Claim C2, counterexample: the claim states that local argument
validation is performed — and on violation the VALIDATION envelope is
returned — before `rate_limiter.acquire` is called, so a violating
invocation would never acquire the rate limiter.  At the concrete violating
input `limit = 501` the single handler returns the VALIDATION envelope, yet
its whole trace is exactly the rate-limiter acquisition: `acquire` ran
before validation. -/
theorem c2_counterexample :
    resultKind (get_paper_recommendations_single
      (Env.mk none 30 HttpOutcome.timeout) "p" none 501 "recent").1 =
      some ErrorType.VALIDATION ∧
    (get_paper_recommendations_single
      (Env.mk none 30 HttpOutcome.timeout) "p" none 501 "recent").2 =
      [Event.acquire "/recommendations"] :=
  ⟨rfl, rfl⟩

/-- Claim C2, amended: for every tool invocation,
`rate_limiter.acquire("/recommendations")` is called first; local argument
validation runs after it, and on violation the VALIDATION envelope is
returned before any HTTP client is constructed or any request is issued
(zero network events in the trace, whose first event is the acquisition). -/
theorem c2_validation_after_acquire (key : Option String) (T : Nat)
    (o : HttpOutcome) (pid : String) (fields : Option String) (limit : Int)
    (pool : String) (pos : List String) (neg : Option (List String))
    (fieldsm : Option String) (limitm : Int)
    (hsv : limit > 500 ∨ pool ∉ (["recent", "all-cs"] : List String))
    (hmv : pos = [] ∨ limitm > 500) :
    (resultKind (get_paper_recommendations_single (Env.mk key T o)
        pid fields limit pool).1 = some ErrorType.VALIDATION ∧
      networkCalls (get_paper_recommendations_single (Env.mk key T o)
        pid fields limit pool).2 = 0 ∧
      (get_paper_recommendations_single (Env.mk key T o)
        pid fields limit pool).2.head? =
        some (Event.acquire "/recommendations")) ∧
    (resultKind (get_paper_recommendations_multi (Env.mk key T o)
        pos neg fieldsm limitm).1 = some ErrorType.VALIDATION ∧
      networkCalls (get_paper_recommendations_multi (Env.mk key T o)
        pos neg fieldsm limitm).2 = 0 ∧
      (get_paper_recommendations_multi (Env.mk key T o)
        pos neg fieldsm limitm).2.head? =
        some (Event.acquire "/recommendations")) := by
  constructor
  · by_cases hl : limit > 500
    · unfold get_paper_recommendations_single
      rw [if_pos hl]
      exact ⟨rfl, rfl, rfl⟩
    · have hp : pool ∉ (["recent", "all-cs"] : List String) := by
        rcases hsv with h | h
        · exact absurd h hl
        · exact h
      unfold get_paper_recommendations_single
      rw [if_neg hl, if_pos hp]
      exact ⟨rfl, rfl, rfl⟩
  · by_cases hpos : pos = []
    · unfold get_paper_recommendations_multi
      rw [if_pos hpos]
      exact ⟨rfl, rfl, rfl⟩
    · have hlm : limitm > 500 := by
        rcases hmv with h | h
        · exact absurd h hpos
        · exact h
      unfold get_paper_recommendations_multi
      rw [if_neg hpos, if_pos hlm]
      exact ⟨rfl, rfl, rfl⟩

/-- Witness for the amended claim C2, at `limit = 501` for the single
handler and an empty positive-identifier list for the multi handler. -/
theorem c2_validation_after_acquire_witness :
    ((501 : Int) > 500 ∨ "recent" ∉ (["recent", "all-cs"] : List String)) ∧
    (([] : List String) = [] ∨ (100 : Int) > 500) ∧
    ((resultKind (get_paper_recommendations_single
        (Env.mk none 30 HttpOutcome.timeout) "p" none 501 "recent").1 =
        some ErrorType.VALIDATION ∧
      networkCalls (get_paper_recommendations_single
        (Env.mk none 30 HttpOutcome.timeout) "p" none 501 "recent").2 = 0 ∧
      (get_paper_recommendations_single
        (Env.mk none 30 HttpOutcome.timeout) "p" none 501 "recent").2.head? =
        some (Event.acquire "/recommendations")) ∧
    (resultKind (get_paper_recommendations_multi
        (Env.mk none 30 HttpOutcome.timeout) [] none none 100).1 =
        some ErrorType.VALIDATION ∧
      networkCalls (get_paper_recommendations_multi
        (Env.mk none 30 HttpOutcome.timeout) [] none none 100).2 = 0 ∧
      (get_paper_recommendations_multi
        (Env.mk none 30 HttpOutcome.timeout) [] none none 100).2.head? =
        some (Event.acquire "/recommendations"))) :=
  ⟨by decide, by decide,
    c2_validation_after_acquire none 30 HttpOutcome.timeout "p" none 501
      "recent" [] none none 100 (by decide) (by decide)⟩

/-- Claim C3: no tool invocation terminates by raising across the tool
boundary — the embedded handlers are total functions into `ToolResult`, and
any unexpected failure (the catch-all `except Exception` branch) is logged
and returned as an API_ERROR envelope whose details hold the string
rendering of the failure under the key `error`. -/
theorem c3_unexpected_failure_enveloped (key : Option String) (T : Nat)
    (desc : String) (pid : String) (fields : Option String) (limit : Int)
    (pool : String) (pos : List String) (neg : Option (List String))
    (fieldsm : Option String) (limitm : Int)
    (h1 : ¬ limit > 500) (h2 : pool ∈ (["recent", "all-cs"] : List String))
    (h3 : pos ≠ []) (h4 : ¬ limitm > 500) :
    (get_paper_recommendations_single (Env.mk key T (HttpOutcome.failure desc))
        pid fields limit pool).1 =
      ToolResult.err (ErrorEnvelope.mk ErrorType.API_ERROR
        "Failed to get recommendations" [("error", JValue.s desc)]) ∧
    logsError (get_paper_recommendations_single
        (Env.mk key T (HttpOutcome.failure desc)) pid fields limit pool).2 =
      true ∧
    (get_paper_recommendations_multi (Env.mk key T (HttpOutcome.failure desc))
        pos neg fieldsm limitm).1 =
      ToolResult.err (ErrorEnvelope.mk ErrorType.API_ERROR
        "Failed to get recommendations" [("error", JValue.s desc)]) ∧
    logsError (get_paper_recommendations_multi
        (Env.mk key T (HttpOutcome.failure desc)) pos neg fieldsm limitm).2 =
      true := by
  refine ⟨?_, ?_, ?_, ?_⟩
  · unfold get_paper_recommendations_single
    rw [if_neg h1, if_neg (not_not_intro h2)]
    rfl
  · unfold get_paper_recommendations_single
    rw [if_neg h1, if_neg (not_not_intro h2)]
    rfl
  · unfold get_paper_recommendations_multi
    rw [if_neg h3, if_neg h4]
    rfl
  · unfold get_paper_recommendations_multi
    rw [if_neg h3, if_neg h4]
    rfl

/-- Witness for claim C3 at a concrete unexpected failure. -/
theorem c3_unexpected_failure_enveloped_witness :
    (¬ (100 : Int) > 500) ∧
    ("recent" ∈ (["recent", "all-cs"] : List String)) ∧
    ((["a"] : List String) ≠ []) ∧
    ((get_paper_recommendations_single
        (Env.mk none 30 (HttpOutcome.failure "boom")) "p" none 100 "recent").1 =
      ToolResult.err (ErrorEnvelope.mk ErrorType.API_ERROR
        "Failed to get recommendations" [("error", JValue.s "boom")]) ∧
      logsError (get_paper_recommendations_single
        (Env.mk none 30 (HttpOutcome.failure "boom")) "p" none 100 "recent").2 =
        true ∧
      (get_paper_recommendations_multi
        (Env.mk none 30 (HttpOutcome.failure "boom")) ["a"] none none 100).1 =
      ToolResult.err (ErrorEnvelope.mk ErrorType.API_ERROR
        "Failed to get recommendations" [("error", JValue.s "boom")]) ∧
      logsError (get_paper_recommendations_multi
        (Env.mk none 30 (HttpOutcome.failure "boom")) ["a"] none none 100).2 =
        true) :=
  ⟨by decide, by decide, by decide,
    c3_unexpected_failure_enveloped none 30 "boom" "p" none 100 "recent"
      ["a"] none none 100 (by decide) (by decide) (by decide) (by decide)⟩

/-- Claim C4, counterexample: the claim states that every call with
`limit > 500` yields a VALIDATION envelope with details `max_limit = 500`
and `requested = limit`.  At the concrete input of the multi handler with an
empty positive list and `limit = 501`, the empty-list check fires first: the
envelope is VALIDATION but its details are empty, not the claimed mapping. -/
theorem c4_counterexample :
    resultKind (get_paper_recommendations_multi
      (Env.mk none 30 HttpOutcome.timeout) [] none none 501).1 =
      some ErrorType.VALIDATION ∧
    resultDetails (get_paper_recommendations_multi
      (Env.mk none 30 HttpOutcome.timeout) [] none none 501).1 =
      some [] ∧
    (some ([] : List (String × JValue)) ≠
      some [("max_limit", JValue.n 500), ("requested", JValue.n 501)]) := by
  refine ⟨rfl, rfl, ?_⟩
  simp

/-- Claim C4, amended: a call with `limit > 500` yields the VALIDATION
envelope with details `max_limit = 500` and `requested = limit` and zero
network events — unconditionally for the single handler, and for the multi
handler whenever `positive_paper_ids` is non-empty (an empty list triggers
the empty-list VALIDATION envelope first). -/
theorem c4_limit_ceiling (key : Option String) (T : Nat) (o : HttpOutcome)
    (pid : String) (fields : Option String) (limit : Int) (pool : String)
    (pos : List String) (neg : Option (List String)) (fieldsm : Option String)
    (limitm : Int)
    (hl : limit > 500) (hpos : pos ≠ []) (hlm : limitm > 500) :
    ((get_paper_recommendations_single (Env.mk key T o)
        pid fields limit pool).1 =
      ToolResult.err (ErrorEnvelope.mk ErrorType.VALIDATION
        "Cannot request more than 500 recommendations"
        [("max_limit", JValue.n 500), ("requested", JValue.n limit)]) ∧
      networkCalls (get_paper_recommendations_single (Env.mk key T o)
        pid fields limit pool).2 = 0) ∧
    ((get_paper_recommendations_multi (Env.mk key T o)
        pos neg fieldsm limitm).1 =
      ToolResult.err (ErrorEnvelope.mk ErrorType.VALIDATION
        "Cannot request more than 500 recommendations"
        [("max_limit", JValue.n 500), ("requested", JValue.n limitm)]) ∧
      networkCalls (get_paper_recommendations_multi (Env.mk key T o)
        pos neg fieldsm limitm).2 = 0) := by
  constructor
  · unfold get_paper_recommendations_single
    rw [if_pos hl]
    exact ⟨rfl, rfl⟩
  · unfold get_paper_recommendations_multi
    rw [if_neg hpos, if_pos hlm]
    exact ⟨rfl, rfl⟩

/-- Witness for the amended claim C4 at `limit = 501`. -/
theorem c4_limit_ceiling_witness :
    ((501 : Int) > 500) ∧ ((["a"] : List String) ≠ []) ∧
    (((get_paper_recommendations_single
        (Env.mk none 30 HttpOutcome.timeout) "p" none 501 "recent").1 =
      ToolResult.err (ErrorEnvelope.mk ErrorType.VALIDATION
        "Cannot request more than 500 recommendations"
        [("max_limit", JValue.n 500), ("requested", JValue.n 501)]) ∧
      networkCalls (get_paper_recommendations_single
        (Env.mk none 30 HttpOutcome.timeout) "p" none 501 "recent").2 = 0) ∧
    ((get_paper_recommendations_multi
        (Env.mk none 30 HttpOutcome.timeout) ["a"] none none 501).1 =
      ToolResult.err (ErrorEnvelope.mk ErrorType.VALIDATION
        "Cannot request more than 500 recommendations"
        [("max_limit", JValue.n 500), ("requested", JValue.n 501)]) ∧
      networkCalls (get_paper_recommendations_multi
        (Env.mk none 30 HttpOutcome.timeout) ["a"] none none 501).2 = 0)) :=
  ⟨by decide, by decide,
    c4_limit_ceiling none 30 HttpOutcome.timeout "p" none 501 "recent"
      ["a"] none none 501 (by decide) (by decide) (by decide)⟩

/-- Claim C5, counterexample: the claim states that on a local precondition
violation the VALIDATION envelope's details name both the violated
constraint and the offending value(s).  At the concrete input
`from_pool = "bogus"` the single handler's envelope details list only the
valid pool options and nowhere mention the offending value `"bogus"`; and
the multi handler's empty-positive-list envelope carries no details at
all. -/
theorem c5_counterexample :
    (get_paper_recommendations_single (Env.mk none 30 HttpOutcome.timeout)
        "p" none 100 "bogus").1 =
      ToolResult.err (ErrorEnvelope.mk ErrorType.VALIDATION
        "Invalid paper pool specified"
        [("valid_pools", JValue.arr [JValue.s "recent", JValue.s "all-cs"])]) ∧
    jfieldsMentions
      [("valid_pools", JValue.arr [JValue.s "recent", JValue.s "all-cs"])]
      "bogus" = false ∧
    resultDetails (get_paper_recommendations_multi
      (Env.mk none 30 HttpOutcome.timeout) [] none none 100).1 = some [] :=
  ⟨rfl, rfl, rfl⟩

/-- Claim C5, amended: on a local precondition violation the handler returns
a VALIDATION envelope and issues zero network events; the violated
constraint is named in the envelope's message, the single handler's
invalid-pool details list the valid pool options (but not the offending
value), and the multi handler's empty-list envelope carries empty
details. -/
theorem c5_local_validation (key : Option String) (T : Nat) (o : HttpOutcome)
    (pid : String) (fields : Option String) (limit : Int) (pool : String)
    (neg : Option (List String)) (fieldsm : Option String) (limitm : Int)
    (hl : ¬ limit > 500)
    (hp : pool ∉ (["recent", "all-cs"] : List String)) :
    ((get_paper_recommendations_single (Env.mk key T o)
        pid fields limit pool).1 =
      ToolResult.err (ErrorEnvelope.mk ErrorType.VALIDATION
        "Invalid paper pool specified"
        [("valid_pools", JValue.arr [JValue.s "recent", JValue.s "all-cs"])]) ∧
      networkCalls (get_paper_recommendations_single (Env.mk key T o)
        pid fields limit pool).2 = 0) ∧
    ((get_paper_recommendations_multi (Env.mk key T o)
        [] neg fieldsm limitm).1 =
      ToolResult.err (ErrorEnvelope.mk ErrorType.VALIDATION
        "Must provide at least one positive paper ID" []) ∧
      networkCalls (get_paper_recommendations_multi (Env.mk key T o)
        [] neg fieldsm limitm).2 = 0) := by
  constructor
  · unfold get_paper_recommendations_single
    rw [if_neg hl, if_pos hp]
    exact ⟨rfl, rfl⟩
  · unfold get_paper_recommendations_multi
    rw [if_pos rfl]
    exact ⟨rfl, rfl⟩

/-- Witness for the amended claim C5 at `from_pool = "bogus"` and an empty
positive-identifier list. -/
theorem c5_local_validation_witness :
    (¬ (100 : Int) > 500) ∧
    ("bogus" ∉ (["recent", "all-cs"] : List String)) ∧
    (((get_paper_recommendations_single (Env.mk none 30 HttpOutcome.timeout)
        "p" none 100 "bogus").1 =
      ToolResult.err (ErrorEnvelope.mk ErrorType.VALIDATION
        "Invalid paper pool specified"
        [("valid_pools", JValue.arr [JValue.s "recent", JValue.s "all-cs"])]) ∧
      networkCalls (get_paper_recommendations_single
        (Env.mk none 30 HttpOutcome.timeout) "p" none 100 "bogus").2 = 0) ∧
    ((get_paper_recommendations_multi (Env.mk none 30 HttpOutcome.timeout)
        [] none none 100).1 =
      ToolResult.err (ErrorEnvelope.mk ErrorType.VALIDATION
        "Must provide at least one positive paper ID" []) ∧
      networkCalls (get_paper_recommendations_multi
        (Env.mk none 30 HttpOutcome.timeout) [] none none 100).2 = 0)) :=
  ⟨by decide, by decide,
    c5_local_validation none 30 HttpOutcome.timeout "p" none 100 "bogus"
      none none 100 (by decide) (by decide)⟩

/-- Claim C6: an upstream 404 yields a VALIDATION envelope — never
API_ERROR — whose details echo the identifying arguments: `paper_id` for the
single handler, the positive IDs and the raw negative-IDs argument for the
multi handler.  The 404 check precedes `raise_for_status`, so the 404 can
never reach the API_ERROR classification. -/
theorem c6_not_found_validation (key : Option String) (T : Nat)
    (hs : List (String × String)) (text : String) (body : JValue)
    (pid : String) (fields : Option String) (limit : Int) (pool : String)
    (pos : List String) (neg : Option (List String)) (fieldsm : Option String)
    (limitm : Int)
    (h1 : ¬ limit > 500) (h2 : pool ∈ (["recent", "all-cs"] : List String))
    (h3 : pos ≠ []) (h4 : ¬ limitm > 500) :
    (get_paper_recommendations_single
        (Env.mk key T (HttpOutcome.response 404 hs text body))
        pid fields limit pool).1 =
      ToolResult.err (ErrorEnvelope.mk ErrorType.VALIDATION "Paper not found"
        [("paper_id", JValue.s pid)]) ∧
    (get_paper_recommendations_multi
        (Env.mk key T (HttpOutcome.response 404 hs text body))
        pos neg fieldsm limitm).1 =
      ToolResult.err (ErrorEnvelope.mk ErrorType.VALIDATION
        "One or more input papers not found"
        [("positive_ids", JValue.arr (pos.map JValue.s)),
         ("negative_ids", negEcho neg)]) := by
  constructor
  · unfold get_paper_recommendations_single
    rw [if_neg h1, if_neg (not_not_intro h2)]
    rfl
  · unfold get_paper_recommendations_multi
    rw [if_neg h3, if_neg h4]
    rfl

/-- Witness for claim C6 at a concrete simulated upstream 404. -/
theorem c6_not_found_validation_witness :
    (¬ (100 : Int) > 500) ∧
    ("recent" ∈ (["recent", "all-cs"] : List String)) ∧
    ((["a"] : List String) ≠ []) ∧
    ((get_paper_recommendations_single
        (Env.mk none 30 (HttpOutcome.response 404 [] "" JValue.null))
        "p" none 100 "recent").1 =
      ToolResult.err (ErrorEnvelope.mk ErrorType.VALIDATION "Paper not found"
        [("paper_id", JValue.s "p")]) ∧
    (get_paper_recommendations_multi
        (Env.mk none 30 (HttpOutcome.response 404 [] "" JValue.null))
        ["a"] none none 100).1 =
      ToolResult.err (ErrorEnvelope.mk ErrorType.VALIDATION
        "One or more input papers not found"
        [("positive_ids", JValue.arr ([("a" : String)].map JValue.s)),
         ("negative_ids", negEcho none)])) :=
  ⟨by decide, by decide, by decide,
    c6_not_found_validation none 30 [] "" JValue.null "p" none 100 "recent"
      ["a"] none none 100 (by decide) (by decide) (by decide) (by decide)⟩

/-- Claim C7: an upstream 429 yields a RATE_LIMIT envelope whose details
hold the server-supplied retry-after header value under `retry_after` and,
under `authenticated`, whether a credential was attached to the failed
request (the final conjunct relates the recorded flag to the request
actually carrying an `x-api-key` header). -/
theorem c7_rate_limit_envelope (key : Option String) (T : Nat)
    (hs : List (String × String)) (text : String) (body : JValue) (r : String)
    (pid : String) (fields : Option String) (limit : Int) (pool : String)
    (pos : List String) (neg : Option (List String)) (fieldsm : Option String)
    (limitm : Int)
    (h1 : ¬ limit > 500) (h2 : pool ∈ (["recent", "all-cs"] : List String))
    (h3 : pos ≠ []) (h4 : ¬ limitm > 500)
    (hr : headerGet hs "retry-after" = some r) :
    (get_paper_recommendations_single
        (Env.mk key T (HttpOutcome.response 429 hs text body))
        pid fields limit pool).1 =
      ToolResult.err (ErrorEnvelope.mk ErrorType.RATE_LIMIT
        "Rate limit exceeded. Consider using an API key for higher limits."
        [("retry_after", JValue.s r),
         ("authenticated", JValue.b (truthyStr key))]) ∧
    (get_paper_recommendations_multi
        (Env.mk key T (HttpOutcome.response 429 hs text body))
        pos neg fieldsm limitm).1 =
      ToolResult.err (ErrorEnvelope.mk ErrorType.RATE_LIMIT
        "Rate limit exceeded. Consider using an API key for higher limits."
        [("retry_after", JValue.s r),
         ("authenticated", JValue.b (truthyStr key))]) ∧
    (truthyStr key = true ↔ authHeaders key ≠ []) := by
  refine ⟨?_, ?_, ?_⟩
  · unfold get_paper_recommendations_single
    rw [if_neg h1, if_neg (not_not_intro h2)]
    simp [hr, create_error_response]
  · unfold get_paper_recommendations_multi
    rw [if_neg h3, if_neg h4]
    simp [hr, create_error_response]
  · cases key with
    | none => simp [truthyStr, authHeaders]
    | some k =>
      by_cases hk : k = "" <;> simp [truthyStr, authHeaders, hk]

/-- Witness for claim C7 at a simulated 429 with header
`retry-after: 30` and an attached credential. -/
theorem c7_rate_limit_envelope_witness :
    (¬ (100 : Int) > 500) ∧
    ("recent" ∈ (["recent", "all-cs"] : List String)) ∧
    ((["a"] : List String) ≠ []) ∧
    headerGet [("retry-after", "30")] "retry-after" = some "30" ∧
    ((get_paper_recommendations_single
        (Env.mk (some "k") 30
          (HttpOutcome.response 429 [("retry-after", "30")] "" JValue.null))
        "p" none 100 "recent").1 =
      ToolResult.err (ErrorEnvelope.mk ErrorType.RATE_LIMIT
        "Rate limit exceeded. Consider using an API key for higher limits."
        [("retry_after", JValue.s "30"),
         ("authenticated", JValue.b (truthyStr (some "k")))]) ∧
    (get_paper_recommendations_multi
        (Env.mk (some "k") 30
          (HttpOutcome.response 429 [("retry-after", "30")] "" JValue.null))
        ["a"] none none 100).1 =
      ToolResult.err (ErrorEnvelope.mk ErrorType.RATE_LIMIT
        "Rate limit exceeded. Consider using an API key for higher limits."
        [("retry_after", JValue.s "30"),
         ("authenticated", JValue.b (truthyStr (some "k")))]) ∧
    (truthyStr (some "k") = true ↔ authHeaders (some "k") ≠ [])) :=
  ⟨by decide, by decide, by decide, rfl,
    c7_rate_limit_envelope (some "k") 30 [("retry-after", "30")] ""
      JValue.null "30" "p" none 100 "recent" ["a"] none none 100
      (by decide) (by decide) (by decide) (by decide) rfl⟩

/-- Claim C8, counterexample: the claim states that for a non-2xx status
other than 404 and 429 the API_ERROR envelope's details include both the
numeric status code and the raw response body text.  At the concrete input
of a 500 response with body `"boom"`, the details are exactly
`response = "boom"`: they contain the body text but nowhere mention the
numeric status `500`, which appears only in the message. -/
theorem c8_counterexample :
    (get_paper_recommendations_single
        (Env.mk none 30 (HttpOutcome.response 500 [] "boom" JValue.null))
        "p" none 100 "recent").1 =
      ToolResult.err (ErrorEnvelope.mk ErrorType.API_ERROR "HTTP error 500"
        [("response", JValue.s "boom")]) ∧
    jfieldsMentions [("response", JValue.s "boom")] "boom" = true ∧
    jfieldsMentions [("response", JValue.s "boom")] "500" = false :=
  ⟨rfl, rfl, rfl⟩

/-- Claim C8, amended: for a non-2xx status other than 404 and 429 the
handler returns an API_ERROR envelope whose details hold the raw response
body text under `response`; the numeric status code appears in the
envelope's message (`HTTP error <status>`), not in the details. -/
theorem c8_api_error_envelope (key : Option String) (T : Nat)
    (hs : List (String × String)) (text : String) (body : JValue) (st : Nat)
    (pid : String) (fields : Option String) (limit : Int) (pool : String)
    (pos : List String) (neg : Option (List String)) (fieldsm : Option String)
    (limitm : Int)
    (h1 : ¬ limit > 500) (h2 : pool ∈ (["recent", "all-cs"] : List String))
    (h3 : pos ≠ []) (h4 : ¬ limitm > 500)
    (h5 : st ≠ 404) (h6 : ¬ (200 ≤ st ∧ st < 300)) (h7 : st ≠ 429) :
    (get_paper_recommendations_single
        (Env.mk key T (HttpOutcome.response st hs text body))
        pid fields limit pool).1 =
      ToolResult.err (ErrorEnvelope.mk ErrorType.API_ERROR
        ("HTTP error " ++ toString st) [("response", JValue.s text)]) ∧
    (get_paper_recommendations_multi
        (Env.mk key T (HttpOutcome.response st hs text body))
        pos neg fieldsm limitm).1 =
      ToolResult.err (ErrorEnvelope.mk ErrorType.API_ERROR
        ("HTTP error " ++ toString st) [("response", JValue.s text)]) := by
  constructor
  · unfold get_paper_recommendations_single
    rw [if_neg h1, if_neg (not_not_intro h2)]
    simp only [if_neg h5, if_neg h6, if_neg h7]
    rfl
  · unfold get_paper_recommendations_multi
    rw [if_neg h3, if_neg h4]
    simp only [if_neg h5, if_neg h6, if_neg h7]
    rfl

/-- Witness for the amended claim C8 at a simulated 500 response. -/
theorem c8_api_error_envelope_witness :
    (¬ (100 : Int) > 500) ∧
    ("recent" ∈ (["recent", "all-cs"] : List String)) ∧
    ((["a"] : List String) ≠ []) ∧
    ((500 : Nat) ≠ 404) ∧ (¬ ((200 : Nat) ≤ 500 ∧ (500 : Nat) < 300)) ∧
    ((500 : Nat) ≠ 429) ∧
    ((get_paper_recommendations_single
        (Env.mk none 30 (HttpOutcome.response 500 [] "boom" JValue.null))
        "p" none 100 "recent").1 =
      ToolResult.err (ErrorEnvelope.mk ErrorType.API_ERROR
        ("HTTP error " ++ toString (500 : Nat))
        [("response", JValue.s "boom")]) ∧
    (get_paper_recommendations_multi
        (Env.mk none 30 (HttpOutcome.response 500 [] "boom" JValue.null))
        ["a"] none none 100).1 =
      ToolResult.err (ErrorEnvelope.mk ErrorType.API_ERROR
        ("HTTP error " ++ toString (500 : Nat))
        [("response", JValue.s "boom")])) :=
  ⟨by decide, by decide, by decide, by decide, by decide, by decide,
    c8_api_error_envelope none 30 [] "boom" JValue.null 500 "p" none 100
      "recent" ["a"] none none 100 (by decide) (by decide) (by decide)
      (by decide) (by decide) (by decide) (by decide)⟩

/-- Claim C9: a request that exceeds the configured timeout yields a
TIMEOUT envelope whose message includes the configured timeout value; the
trace shows the HTTP client is constructed with that same configured
timeout, so the request is bounded and the operation cannot hang — it
returns the envelope. -/
theorem c9_timeout_envelope (key : Option String) (T : Nat)
    (pid : String) (fields : Option String) (limit : Int) (pool : String)
    (pos : List String) (neg : Option (List String)) (fieldsm : Option String)
    (limitm : Int)
    (h1 : ¬ limit > 500) (h2 : pool ∈ (["recent", "all-cs"] : List String))
    (h3 : pos ≠ []) (h4 : ¬ limitm > 500) :
    (get_paper_recommendations_single (Env.mk key T HttpOutcome.timeout)
        pid fields limit pool).1 =
      ToolResult.err (ErrorEnvelope.mk ErrorType.TIMEOUT
        ("Request timed out after " ++ toString T ++ " seconds") []) ∧
    Event.createClient T ∈ (get_paper_recommendations_single
        (Env.mk key T HttpOutcome.timeout) pid fields limit pool).2 ∧
    (get_paper_recommendations_multi (Env.mk key T HttpOutcome.timeout)
        pos neg fieldsm limitm).1 =
      ToolResult.err (ErrorEnvelope.mk ErrorType.TIMEOUT
        ("Request timed out after " ++ toString T ++ " seconds") []) ∧
    Event.createClient T ∈ (get_paper_recommendations_multi
        (Env.mk key T HttpOutcome.timeout) pos neg fieldsm limitm).2 := by
  refine ⟨?_, ?_, ?_, ?_⟩
  · unfold get_paper_recommendations_single
    rw [if_neg h1, if_neg (not_not_intro h2)]
    rfl
  · unfold get_paper_recommendations_single
    rw [if_neg h1, if_neg (not_not_intro h2)]
    simp
  · unfold get_paper_recommendations_multi
    rw [if_neg h3, if_neg h4]
    rfl
  · unfold get_paper_recommendations_multi
    rw [if_neg h3, if_neg h4]
    simp

/-- Witness for claim C9 at a concrete timed-out request with the
configured timeout set to 30 seconds. -/
theorem c9_timeout_envelope_witness :
    (¬ (100 : Int) > 500) ∧
    ("recent" ∈ (["recent", "all-cs"] : List String)) ∧
    ((["a"] : List String) ≠ []) ∧
    ((get_paper_recommendations_single (Env.mk none 30 HttpOutcome.timeout)
        "p" none 100 "recent").1 =
      ToolResult.err (ErrorEnvelope.mk ErrorType.TIMEOUT
        ("Request timed out after " ++ toString (30 : Nat) ++ " seconds") []) ∧
    Event.createClient 30 ∈ (get_paper_recommendations_single
        (Env.mk none 30 HttpOutcome.timeout) "p" none 100 "recent").2 ∧
    (get_paper_recommendations_multi (Env.mk none 30 HttpOutcome.timeout)
        ["a"] none none 100).1 =
      ToolResult.err (ErrorEnvelope.mk ErrorType.TIMEOUT
        ("Request timed out after " ++ toString (30 : Nat) ++ " seconds") []) ∧
    Event.createClient 30 ∈ (get_paper_recommendations_multi
        (Env.mk none 30 HttpOutcome.timeout) ["a"] none none 100).2) :=
  ⟨by decide, by decide, by decide,
    c9_timeout_envelope none 30 "p" none 100 "recent" ["a"] none none 100
      (by decide) (by decide) (by decide) (by decide)⟩

/-- Claim C10: whenever `negative_paper_ids` is omitted (`None`) or empty,
the multi handler's outbound JSON body still carries both keys —
`positivePaperIds` with the supplied list and `negativePaperIds` equal to
the empty list (`negative_paper_ids or []` in the source); the field is
present, never absent or null.  The conclusion pins the full body of the
one POST the trace contains, for every transport outcome. -/
theorem c10_negative_ids_default (key : Option String) (T : Nat)
    (o : HttpOutcome) (pos : List String) (neg : Option (List String))
    (fieldsm : Option String) (limitm : Int)
    (h3 : pos ≠ []) (h4 : ¬ limitm > 500)
    (hneg : neg = none ∨ neg = some []) :
    postBodies (get_paper_recommendations_multi (Env.mk key T o)
        pos neg fieldsm limitm).2 =
      [JValue.obj [("positivePaperIds", JValue.arr (pos.map JValue.s)),
                   ("negativePaperIds", JValue.arr [])]] := by
  rcases hneg with h | h <;> subst h <;>
    unfold get_paper_recommendations_multi <;>
    rw [if_neg h3, if_neg h4] <;>
    cases o <;> simp [postBodies] <;> split_ifs <;> simp [postBodies]

/-- Witness for claim C10 with `negative_paper_ids` omitted. -/
theorem c10_negative_ids_default_witness :
    ((["a"] : List String) ≠ []) ∧ (¬ (100 : Int) > 500) ∧
    ((none : Option (List String)) = none ∨
      (none : Option (List String)) = some []) ∧
    postBodies (get_paper_recommendations_multi
        (Env.mk none 30 HttpOutcome.timeout) ["a"] none none 100).2 =
      [JValue.obj
        [("positivePaperIds", JValue.arr (([("a" : String)]).map JValue.s)),
         ("negativePaperIds", JValue.arr [])]] :=
  ⟨by decide, by decide, by decide,
    c10_negative_ids_default none 30 HttpOutcome.timeout ["a"] none none 100
      (by decide) (by decide) (Or.inl rfl)⟩
